import Mathlib

/-!
Shallow embedding of `src/event.go` from huntresslabs/gowinlog.

The Go code wraps native wevtapi calls (`EvtRender`, `EvtFormatMessage`,
`EvtSubscribe`, `EvtOpenPublisherMetadata`).  Each native call is modelled by
an oracle passed to the embedded function: the probe outcome is supplied
directly, and the retry outcome is a function of the buffer size that the Go
code passes on the second call.  Each embedded function returns, besides the
Go-level result, a trace of the native calls it performed (buffer size passed
and whether the buffer pointer was nil) and of the buffer it allocated
(element width in bytes and element count), so that the calling discipline of
the source is itself a provable object.

Machine integers (`uint32`, handles, errno values) are modelled as `Nat`; none
of the embedded code performs arithmetic that could overflow, it only moves
these values around.  Errors (`error` results in Go) are `Option Nat` (an
errno) or an explicit error type where the Go code mixes error kinds.
-/

namespace Winlog

/-- Subscription start flags from the interop constant block:
`iota` with the first slot skipped, hence 1, 2, 3. -/
def EvtSubscribeToFutureEvents : Nat := 1

/-- Second subscription start flag (`iota` = 2). -/
def EvtSubscribeStartAtOldestRecord : Nat := 2

/-- Third subscription start flag (`iota` = 3). -/
def EvtSubscribeStartAfterBookmark : Nat := 3

/-- Callback notification action: error (`iota` = 0). -/
def EvtSubscribeActionError : Nat := 0

/-- Callback notification action: deliver (`iota` = 1). -/
def EvtSubscribeActionDeliver : Nat := 1

/-- System property ordinal of the provider name (`iota` = 0). -/
def EvtSystemProviderName : Nat := 0

/-- Render flag for typed event values (`iota` = 0). -/
def EvtRenderEventValues : Nat := 0

/-- Render flag for the raw XML rendering (`iota` = 1). -/
def EvtRenderEventXml : Nat := 1

/-- Format flag for the event message (`iota` = 1, first slot skipped). -/
def EvtFormatMessageEvent : Nat := 1

/-- The Windows errno for an insufficient buffer, checked literally as `122`
in `FormatMessage`. -/
def ERROR_INSUFFICIENT_BUFFER : Nat := 122

/-- Outcome of one native `EvtRender` invocation as seen through the Go
wrapper: `err = none` models a nonzero return value (success) in which case
the wrapper returns a nil error, `err = some e` models failure with errno
`e`.  `bufferUsed` and `propertyCount` are the values written through the
output pointers, and `written` is the content the native call stored in the
caller-supplied buffer (empty for a probe with a nil buffer). -/
structure EvtRenderOut where
  err : Option Nat
  bufferUsed : Nat
  propertyCount : Nat
  written : List Nat := []
deriving Repr, DecidableEq

/-- Outcome of one native `EvtFormatMessage` invocation, analogous to
`EvtRenderOut` but without a property count. -/
structure FormatOut where
  err : Option Nat
  bufferUsed : Nat
  written : List Nat := []
deriving Repr, DecidableEq

/-- One native render/format call as performed by the Go code: the flags
argument, the buffer size argument, and whether the buffer pointer passed
was nil. -/
structure RenderCall where
  flags : Nat
  bufferSize : Nat
  bufferIsNull : Bool
deriving Repr, DecidableEq

/-- One Go `make` allocation: element width in bytes (1 for `[]byte`, 2 for
`[]uint16`) and element count. -/
structure Alloc where
  elemWidthBytes : Nat
  count : Nat
deriving Repr, DecidableEq

/-- Total size in bytes of an allocation. -/
def Alloc.bytes (a : Alloc) : Nat := a.elemWidthBytes * a.count

/-- Model of `syscall.UTF16ToString`: decode the code units up to the first
NUL.  (Surrogate pairs are not recombined; no claim depends on the decoded
text.) -/
def UTF16ToString (l : List Nat) : String :=
  String.mk ((l.takeWhile (fun c => c ≠ 0)).map Char.ofNat)

/-- UTF-16 code units of a string followed by the NUL terminator, as
`syscall.UTF16PtrFromString` produces for NUL-free input.  (Characters above
the BMP would really expand to surrogate pairs; no claim inspects the
units.) -/
def utf16Units (s : String) : List Nat := s.toList.map Char.toNat ++ [0]

/-- Error values of the embedded Go functions: a native errno, the two
variant accessor failures, or the `syscall.UTF16PtrFromString` failure on a
string containing a NUL. -/
inductive GoError where
  | errno (n : Nat)
  | typeMismatch
  | indexOutOfRange
  | nulInString
deriving Repr, DecidableEq

/-- Model of `syscall.UTF16PtrFromString`: fails exactly when the string
contains a NUL character, otherwise yields the terminated code units. -/
def UTF16PtrFromString (s : String) : Except GoError (List Nat) :=
  if s.toList.contains (Char.ofNat 0) then Except.error GoError.nulInString
  else Except.ok (utf16Units s)

/-- Result of running one of the two-phase `EvtRender` wrappers:
the trace of native calls made, the allocation performed (if any), the
returned buffer (`none` models the Go `nil` result) and the returned error. -/
structure RenderRun where
  calls : List RenderCall
  alloc : Option Alloc
  buffer : Option (List Nat)
  errOut : Option Nat
deriving Repr, DecidableEq

/-- Embedding of `RenderEventValues` (src/event.go).  The first `EvtRender`
call passes buffer size 0 and a nil buffer; its outputs are `probe`.  If the
reported `bufferUsed` is 0 the function returns `nil` together with the probe
error.  Otherwise it allocates `make([]byte, bufferUsed)`, calls `EvtRender`
again with `bufSize = bufferUsed`, and returns the filled buffer (wrapped by
`NewEvtVariant`, which is not part of src/ and is modelled as returning the
raw byte buffer) or the second call's error. -/
def RenderEventValues (probe : EvtRenderOut) (second : Nat → EvtRenderOut) :
    RenderRun :=
  let bufferUsed := probe.bufferUsed
  if bufferUsed = 0 then
    { calls := [⟨EvtRenderEventValues, 0, true⟩], alloc := none,
      buffer := none, errOut := probe.err }
  else
    let bufSize := bufferUsed
    let out := second bufSize
    match out.err with
    | some e =>
      { calls := [⟨EvtRenderEventValues, 0, true⟩,
                  ⟨EvtRenderEventValues, bufSize, false⟩],
        alloc := some ⟨1, bufferUsed⟩, buffer := none, errOut := some e }
    | none =>
      { calls := [⟨EvtRenderEventValues, 0, true⟩,
                  ⟨EvtRenderEventValues, bufSize, false⟩],
        alloc := some ⟨1, bufferUsed⟩, buffer := some out.written,
        errOut := none }

/-- Embedding of `RenderEventXML` (src/event.go).  Same two-phase shape as
`RenderEventValues`, but the buffer is `make([]uint16, bufferUsed)` — element
width 2 — and the result is the UTF-8 bytes of `syscall.UTF16ToString` of the
filled buffer. -/
def RenderEventXML (probe : EvtRenderOut) (second : Nat → EvtRenderOut) :
    RenderRun :=
  if probe.bufferUsed = 0 then
    { calls := [⟨EvtRenderEventXml, 0, true⟩], alloc := none,
      buffer := none, errOut := probe.err }
  else
    let bufSize := probe.bufferUsed
    let out := second bufSize
    match out.err with
    | some e =>
      { calls := [⟨EvtRenderEventXml, 0, true⟩,
                  ⟨EvtRenderEventXml, bufSize, false⟩],
        alloc := some ⟨2, probe.bufferUsed⟩, buffer := none, errOut := some e }
    | none =>
      { calls := [⟨EvtRenderEventXml, 0, true⟩,
                  ⟨EvtRenderEventXml, bufSize, false⟩],
        alloc := some ⟨2, probe.bufferUsed⟩,
        buffer := some ((UTF16ToString out.written).toUTF8.toList.map
          (fun b => b.toNat)),
        errOut := none }

/-- Result of running `FormatMessage`: the native call trace, the allocation
(if reached), whether the Go code would panic (`&buf[0]` on a zero-length
slice), and the returned `(string, error)` pair (`none` when the run
panics before returning). -/
structure FormatRun where
  calls : List RenderCall
  alloc : Option Alloc
  panicked : Bool
  ret : Option (String × Option Nat)
deriving Repr, DecidableEq

/-- Continuation of `FormatMessage` after the probe error check: allocate
`make([]uint16, size)`, take `&buf[0]` — a panic when `size = 0` — and call
`EvtFormatMessage` again with buffer size `len(buf) = size`. -/
def FormatMessageRetry (format size : Nat) (second : Nat → FormatOut) :
    FormatRun :=
  if size = 0 then
    { calls := [⟨format, 0, true⟩], alloc := some ⟨2, 0⟩,
      panicked := true, ret := none }
  else
    let out := second size
    match out.err with
    | some e =>
      { calls := [⟨format, 0, true⟩, ⟨format, size, false⟩],
        alloc := some ⟨2, size⟩, panicked := false,
        ret := some ("", some e) }
    | none =>
      { calls := [⟨format, 0, true⟩, ⟨format, size, false⟩],
        alloc := some ⟨2, size⟩, panicked := false,
        ret := some (UTF16ToString out.written, none) }

/-- Embedding of `FormatMessage` (src/event.go).  The probe call passes
buffer size 0 and a nil buffer.  A probe error other than errno 122
(`ERROR_INSUFFICIENT_BUFFER`) is returned immediately with an empty string;
a nil probe error or errno 122 falls through to the allocation and retry. -/
def FormatMessage (format : Nat) (probe : FormatOut)
    (second : Nat → FormatOut) : FormatRun :=
  let size := probe.bufferUsed
  match probe.err with
  | some e =>
    if e ≠ ERROR_INSUFFICIENT_BUFFER then
      { calls := [⟨format, 0, true⟩], alloc := none, panicked := false,
        ret := some ("", some e) }
    else
      FormatMessageRetry format size second
  | none => FormatMessageRetry format size second

/-- The argument vector of one native `EvtSubscribe` call, in the order of
the Go wrapper's parameters.  The callback pointer (always
`syscall.NewCallback(newEventCallback(watcher))` in src/) carries no further
data and is omitted from the trace. -/
structure EvtSubscribeArgs where
  session : Nat
  signalEvent : Nat
  channelPath : List Nat
  query : List Nat
  bookmark : Nat
  context : Nat
  flags : Nat
deriving Repr, DecidableEq

/-- Modelled from the spec: the consumer-supplied sink registration object
(`LogEventCallbackWrapper`, declared outside src/).  Src/ reads exactly its
callback object and its `subscribedChannel`; the callback's effects are
recorded as `CallbackEffect`s rather than held as a function, so runs can be
compared for equality. -/
structure LogEventCallbackWrapper where
  subscribedChannel : String
deriving Repr, DecidableEq

/-- One observable effect of the subscription callback: publishing a decoded
error (the errno carried in the handle slot) or publishing an event handle
together with the subscribed channel name. -/
inductive CallbackEffect where
  | publishError (errno : Nat)
  | publishEvent (handle : Nat) (channel : String)
deriving Repr, DecidableEq

instance {ε α : Type} [DecidableEq ε] [DecidableEq α] :
    DecidableEq (Except ε α)
  | Except.error a, Except.error b =>
    if h : a = b then isTrue (by rw [h])
    else isFalse (fun hc => by cases hc; exact h rfl)
  | Except.error _, Except.ok _ => isFalse (fun hc => by cases hc)
  | Except.ok _, Except.error _ => isFalse (fun hc => by cases hc)
  | Except.ok a, Except.ok b =>
    if h : a = b then isTrue (by rw [h])
    else isFalse (fun hc => by cases hc; exact h rfl)

/-- Result of running `CreateListener` / `CreateListenerFromBookmark`: the
`EvtSubscribe` calls made (at most one) and the returned handle or error. -/
structure SubscribeRun where
  calls : List EvtSubscribeArgs
  result : Except GoError Nat
deriving Repr, DecidableEq

/-- Embedding of `CreateListener` (src/event.go): convert channel and query
to UTF-16, then call `EvtSubscribe(0, 0, wideChan, wideQuery, 0, 0, cb,
uint32(startpos))` — a zero bookmark handle with the caller-supplied start
position flag.  `subscribeOracle` models the native call's outcome as a
function of its argument vector. -/
def CreateListener (subscribeOracle : EvtSubscribeArgs → Except Nat Nat)
    (channel query : String) (startpos : Nat)
    (_watcher : LogEventCallbackWrapper) : SubscribeRun :=
  match UTF16PtrFromString channel with
  | Except.error e => { calls := [], result := Except.error e }
  | Except.ok wideChan =>
    match UTF16PtrFromString query with
    | Except.error e => { calls := [], result := Except.error e }
    | Except.ok wideQuery =>
      let args : EvtSubscribeArgs :=
        ⟨0, 0, wideChan, wideQuery, 0, 0, startpos⟩
      { calls := [args],
        result :=
          match subscribeOracle args with
          | Except.error e => Except.error (GoError.errno e)
          | Except.ok h => Except.ok h }

/-- Embedding of `CreateListenerFromBookmark` (src/event.go): same as
`CreateListener` except that the bookmark argument is the caller's bookmark
handle and the flags argument is the fixed
`uint32(EvtSubscribeStartAfterBookmark)`; no caller start position exists. -/
def CreateListenerFromBookmark
    (subscribeOracle : EvtSubscribeArgs → Except Nat Nat)
    (channel query : String) (_watcher : LogEventCallbackWrapper)
    (bookmarkHandle : Nat) : SubscribeRun :=
  match UTF16PtrFromString channel with
  | Except.error e => { calls := [], result := Except.error e }
  | Except.ok wideChan =>
    match UTF16PtrFromString query with
    | Except.error e => { calls := [], result := Except.error e }
    | Except.ok wideQuery =>
      let args : EvtSubscribeArgs :=
        ⟨0, 0, wideChan, wideQuery, bookmarkHandle, 0,
         EvtSubscribeStartAfterBookmark⟩
      { calls := [args],
        result :=
          match subscribeOracle args with
          | Except.error e => Except.error (GoError.errno e)
          | Except.ok h => Except.ok h }

/-- Embedding of the closure returned by `newEventCallback` (src/event.go).
Arguments mirror the Go callback: the action flag, the (ignored) context
pointer and the handle slot.  It returns the list of publish effects it
performs and its `uintptr` return value.  When the action equals
`EvtSubscribeActionError` the handle slot is decoded as an errno
(`syscall.Errno(uintptr(handle))`) and published as an error; otherwise the
handle is forwarded verbatim with the subscribed channel name. -/
def newEventCallback (context : LogEventCallbackWrapper) (action : Nat)
    (_ctxArg : Nat) (handle : Nat) : List CallbackEffect × Nat :=
  if action = EvtSubscribeActionError then
    ([CallbackEffect.publishError handle], 0)
  else
    ([CallbackEffect.publishEvent handle context.subscribedChannel], 0)

/-- Modelled from the spec: one slot of the decoded `VariantArray`, "a tagged
union over (absent, string, 16/32/64-bit unsigned/signed integer, 64-bit
filetime, GUID, boolean)".  The `EvtVariant` accessor methods live in a repo
file outside src/. -/
inductive VariantValue where
  | absent
  | vstring (s : String)
  | vuint (n : Nat)
  | vint (n : Int)
  | vfiletime (ticks : Nat)
  | vguid (g : String)
  | vbool (b : Bool)
deriving Repr, DecidableEq

/-- Modelled from the spec: the decoded, indexed array of typed fields of one
event, "one slot per requested system property ordinal". -/
structure EvtVariant where
  fields : List VariantValue
deriving Repr, DecidableEq

/-- Modelled from the spec: the string accessor of the variant array —
"`field(array, ordinal) -> typed value`, fails with `TypeMismatch` if the
stored tag does not match the requested interpretation, and with
`IndexOutOfRange` if the ordinal exceeds the decoded property count". -/
def EvtVariant.String (v : EvtVariant) (ordinal : Nat) :
    Except GoError String :=
  match v.fields.get? ordinal with
  | none => Except.error GoError.indexOutOfRange
  | some (VariantValue.vstring s) => Except.ok s
  | some _ => Except.error GoError.typeMismatch

/-- Result of running `GetEventPublisherHandle`: the publisher identities
passed to native `EvtOpenPublisherMetadata` (at most one) and the returned
handle or error. -/
structure OpenPublisherRun where
  calls : List (List Nat)
  result : Except GoError Nat
deriving Repr, DecidableEq

/-- Embedding of `GetEventPublisherHandle` (src/event.go): read the provider
name from the rendered fields at ordinal `EvtSystemProviderName`; on failure
return the zero handle with that error and make no native call.  Otherwise
convert the name to UTF-16 and call `EvtOpenPublisherMetadata(0, name, nil,
0, 0)` through the oracle. -/
def GetEventPublisherHandle (openPub : List Nat → Except Nat Nat)
    (renderedFields : EvtVariant) : OpenPublisherRun :=
  match renderedFields.String EvtSystemProviderName with
  | Except.error e => { calls := [], result := Except.error e }
  | Except.ok publisher =>
    match UTF16PtrFromString publisher with
    | Except.error e => { calls := [], result := Except.error e }
    | Except.ok widePublisher =>
      { calls := [widePublisher],
        result :=
          match openPub widePublisher with
          | Except.error e => Except.error (GoError.errno e)
          | Except.ok h => Except.ok h }

/-- The dynamic (`interface` typed) value a `WinLogEvent` field contributes
to the map built by `CreateMap`.  The concrete Go field types (strings,
unsigned integers, a timestamp) are declared outside src/ and are immaterial
to the claims; each field is represented by the value it carries. -/
inductive GoValue where
  | str (s : String)
  | u64 (n : Nat)
  | time (ticks : Nat)
deriving Repr, DecidableEq

/-- Modelled from the spec: the flat named-field event record
(`WinLogEvent`, declared outside src/).  The field list is exactly the set of
fields `CreateMap` (which is in src/) reads from its receiver. -/
structure WinLogEvent where
  Xml : GoValue
  ProviderName : GoValue
  EventId : GoValue
  Qualifiers : GoValue
  Level : GoValue
  Task : GoValue
  Opcode : GoValue
  Created : GoValue
  RecordId : GoValue
  ProcessId : GoValue
  ThreadId : GoValue
  Channel : GoValue
  ComputerName : GoValue
  Version : GoValue
  Msg : GoValue
  LevelText : GoValue
  TaskText : GoValue
  OpcodeText : GoValue
  Keywords : GoValue
  ChannelText : GoValue
  ProviderText : GoValue
  IdText : GoValue
  Bookmark : GoValue
  SubscribedChannel : GoValue
deriving Repr, DecidableEq

/-- A Go `map[string]interface` value, by its lookup function. -/
def GoMap := String → Option GoValue

/-- The empty map produced by `make(map[string]interface...)`. -/
def GoMap.empty : GoMap := fun _ => none

/-- One Go map assignment `m[k] = v`: later writes win. -/
def GoMap.set (m : GoMap) (k : String) (v : GoValue) : GoMap :=
  fun q => if q = k then some v else m q

/-- Embedding of `CreateMap` (src/event.go): a fresh empty map filled by the
source's sequence of assignments, including the duplicate `Bookmark`
assignment at the end. -/
def CreateMap (ev : WinLogEvent) : GoMap :=
  let m := GoMap.empty
  let m := GoMap.set m "Xml" ev.Xml
  let m := GoMap.set m "ProviderName" ev.ProviderName
  let m := GoMap.set m "EventId" ev.EventId
  let m := GoMap.set m "Qualifiers" ev.Qualifiers
  let m := GoMap.set m "Level" ev.Level
  let m := GoMap.set m "Task" ev.Task
  let m := GoMap.set m "Opcode" ev.Opcode
  let m := GoMap.set m "Created" ev.Created
  let m := GoMap.set m "RecordId" ev.RecordId
  let m := GoMap.set m "ProcessId" ev.ProcessId
  let m := GoMap.set m "ThreadId" ev.ThreadId
  let m := GoMap.set m "Channel" ev.Channel
  let m := GoMap.set m "ComputerName" ev.ComputerName
  let m := GoMap.set m "Version" ev.Version
  let m := GoMap.set m "Msg" ev.Msg
  let m := GoMap.set m "LevelText" ev.LevelText
  let m := GoMap.set m "TaskText" ev.TaskText
  let m := GoMap.set m "OpcodeText" ev.OpcodeText
  let m := GoMap.set m "Keywords" ev.Keywords
  let m := GoMap.set m "ChannelText" ev.ChannelText
  let m := GoMap.set m "ProviderText" ev.ProviderText
  let m := GoMap.set m "IdText" ev.IdText
  let m := GoMap.set m "Bookmark" ev.Bookmark
  let m := GoMap.set m "SubscribedChannel" ev.SubscribedChannel
  let m := GoMap.set m "Bookmark" ev.Bookmark
  m

/-- The key set of the map built by `CreateMap`, in source order (the
duplicate `Bookmark` write adds no new key). -/
def createMapKeys : List String :=
  ["Xml", "ProviderName", "EventId", "Qualifiers", "Level", "Task",
   "Opcode", "Created", "RecordId", "ProcessId", "ThreadId", "Channel",
   "ComputerName", "Version", "Msg", "LevelText", "TaskText", "OpcodeText",
   "Keywords", "ChannelText", "ProviderText", "IdText", "Bookmark",
   "SubscribedChannel"]

/-- State-passing reading of `CreateMap`: the method has a pointer receiver,
so the embedding threads the receiver through and returns it alongside the
map.  Every statement of the source only reads the receiver. -/
def CreateMapSt (ev : WinLogEvent) : WinLogEvent × GoMap :=
  (ev, CreateMap ev)

/-- True exactly on `publishError` effects. -/
def CallbackEffect.isPublishError : CallbackEffect → Bool
  | CallbackEffect.publishError _ => true
  | _ => false

/-- True exactly on `publishEvent` effects. -/
def CallbackEffect.isPublishEvent : CallbackEffect → Bool
  | CallbackEffect.publishEvent _ _ => true
  | _ => false

/-- Claim C7: for every `WinLogEvent`, `CreateMap` returns a map containing
exactly the keys Xml, ProviderName, EventId, Qualifiers, Level, Task, Opcode,
Created, RecordId, ProcessId, ThreadId, Channel, ComputerName, Version, Msg,
LevelText, TaskText, OpcodeText, Keywords, ChannelText, ProviderText, IdText,
Bookmark and SubscribedChannel, each mapped to the value of the same-named
field of the event. -/
theorem createMap_exact_fields (ev : WinLogEvent) :
    (∀ k, ((CreateMap ev) k).isSome ↔ k ∈ createMapKeys)
    ∧ CreateMap ev "Xml" = some ev.Xml
    ∧ CreateMap ev "ProviderName" = some ev.ProviderName
    ∧ CreateMap ev "EventId" = some ev.EventId
    ∧ CreateMap ev "Qualifiers" = some ev.Qualifiers
    ∧ CreateMap ev "Level" = some ev.Level
    ∧ CreateMap ev "Task" = some ev.Task
    ∧ CreateMap ev "Opcode" = some ev.Opcode
    ∧ CreateMap ev "Created" = some ev.Created
    ∧ CreateMap ev "RecordId" = some ev.RecordId
    ∧ CreateMap ev "ProcessId" = some ev.ProcessId
    ∧ CreateMap ev "ThreadId" = some ev.ThreadId
    ∧ CreateMap ev "Channel" = some ev.Channel
    ∧ CreateMap ev "ComputerName" = some ev.ComputerName
    ∧ CreateMap ev "Version" = some ev.Version
    ∧ CreateMap ev "Msg" = some ev.Msg
    ∧ CreateMap ev "LevelText" = some ev.LevelText
    ∧ CreateMap ev "TaskText" = some ev.TaskText
    ∧ CreateMap ev "OpcodeText" = some ev.OpcodeText
    ∧ CreateMap ev "Keywords" = some ev.Keywords
    ∧ CreateMap ev "ChannelText" = some ev.ChannelText
    ∧ CreateMap ev "ProviderText" = some ev.ProviderText
    ∧ CreateMap ev "IdText" = some ev.IdText
    ∧ CreateMap ev "Bookmark" = some ev.Bookmark
    ∧ CreateMap ev "SubscribedChannel" = some ev.SubscribedChannel := by
  refine ⟨?_, rfl, rfl, rfl, rfl, rfl, rfl, rfl, rfl, rfl, rfl, rfl, rfl,
    rfl, rfl, rfl, rfl, rfl, rfl, rfl, rfl, rfl, rfl, rfl, rfl⟩
  intro k
  constructor
  · intro h
    by_contra hmem
    simp only [createMapKeys, List.mem_cons, List.not_mem_nil, or_false,
      not_or] at hmem
    obtain ⟨h1, h2, h3, h4, h5, h6, h7, h8, h9, h10, h11, h12, h13, h14,
      h15, h16, h17, h18, h19, h20, h21, h22, h23, h24⟩ := hmem
    simp [CreateMap, GoMap.set, GoMap.empty, h1, h2, h3, h4, h5, h6, h7, h8,
      h9, h10, h11, h12, h13, h14, h15, h16, h17, h18, h19, h20, h21, h22,
      h23, h24] at h
  · intro h
    simp only [createMapKeys, List.mem_cons, List.not_mem_nil, or_false] at h
    rcases h with rfl | rfl | rfl | rfl | rfl | rfl | rfl | rfl | rfl | rfl |
      rfl | rfl | rfl | rfl | rfl | rfl | rfl | rfl | rfl | rfl | rfl | rfl |
      rfl | rfl <;>
    simp [CreateMap, GoMap.set, GoMap.empty]

/-- Claim C7 witness: the Xml entry of the map of a concrete event. -/
theorem createMap_exact_fields_witness :
    CreateMap ⟨GoValue.str "x", GoValue.str "p", GoValue.u64 1, GoValue.u64 0,
      GoValue.u64 4, GoValue.u64 0, GoValue.u64 0, GoValue.time 0,
      GoValue.u64 9, GoValue.u64 2, GoValue.u64 3, GoValue.str "c",
      GoValue.str "m", GoValue.u64 1, GoValue.str "msg", GoValue.str "lt",
      GoValue.str "tt", GoValue.str "ot", GoValue.str "kw", GoValue.str "ct",
      GoValue.str "pt", GoValue.str "it", GoValue.str "bm",
      GoValue.str "sc"⟩ "Xml" = some (GoValue.str "x") :=
  (createMap_exact_fields _).2.1

/-- Claim C10: `CreateMap` has no effect on its receiver — every field of the
`WinLogEvent` is unchanged — and the returned map is rebuilt from the empty
map on each call (aliasing with the receiver is not representable in this
pure embedding; the receiver-preservation and construction-from-empty parts
are what it states). -/
theorem createMap_frame (ev : WinLogEvent) :
    (CreateMapSt ev).1 = ev ∧ (CreateMapSt ev).2 = CreateMap ev :=
  ⟨rfl, rfl⟩

/-- Claim C3: the subscription callback distinguishes error notifications
from deliveries solely by the action flag: on `EvtSubscribeActionError` it
decodes the handle slot as a failure code and publishes exactly one error and
no event; on `EvtSubscribeActionDeliver` it publishes the raw handle with the
subscribed channel and never decodes the handle as a failure code. -/
theorem callback_error_action (w : LogEventCallbackWrapper)
    (ctx handle action : Nat) :
    (action = EvtSubscribeActionError →
      (newEventCallback w action ctx handle).1 =
        [CallbackEffect.publishError handle]
      ∧ ((newEventCallback w action ctx handle).1.countP
          CallbackEffect.isPublishError = 1)
      ∧ ((newEventCallback w action ctx handle).1.countP
          CallbackEffect.isPublishEvent = 0))
    ∧ (action = EvtSubscribeActionDeliver →
      (newEventCallback w action ctx handle).1 =
        [CallbackEffect.publishEvent handle w.subscribedChannel]
      ∧ ((newEventCallback w action ctx handle).1.countP
          CallbackEffect.isPublishError = 0)) := by
  constructor
  · intro h
    subst h
    simp [newEventCallback, EvtSubscribeActionError, List.countP,
      List.countP.go, CallbackEffect.isPublishError,
      CallbackEffect.isPublishEvent]
  · intro h
    subst h
    simp [newEventCallback, EvtSubscribeActionDeliver,
      EvtSubscribeActionError, List.countP, List.countP.go,
      CallbackEffect.isPublishError, CallbackEffect.isPublishEvent]

/-- Claim C3 witness: an error notification carrying the access-denied code 5
publishes exactly one decoded error and no event. -/
theorem callback_error_action_witness :
    (newEventCallback ⟨"Application"⟩ EvtSubscribeActionError 0 5).1 =
      [CallbackEffect.publishError 5] :=
  ((callback_error_action ⟨"Application"⟩ 0 5 EvtSubscribeActionError).1
    rfl).1

/-- Claim C9: for every callback invocation whose action flag is not
`EvtSubscribeActionError` — including action values other than
`EvtSubscribeActionDeliver` — the handle is forwarded to `PublishEvent`
together with the subscription's subscribed channel name, and the callback
always returns 0. -/
theorem callback_default_action (w : LogEventCallbackWrapper)
    (ctx handle action : Nat) (h : action ≠ EvtSubscribeActionError) :
    (newEventCallback w action ctx handle).1 =
      [CallbackEffect.publishEvent handle w.subscribedChannel]
    ∧ (newEventCallback w action ctx handle).2 = 0
    ∧ ∀ a, (newEventCallback w a ctx handle).2 = 0 := by
  refine ⟨?_, ?_, ?_⟩
  · simp [newEventCallback, h]
  · simp [newEventCallback, h]
  · intro a
    unfold newEventCallback
    split <;> rfl

/-- Claim C9 witness: action value 7 (neither error nor deliver) forwards the
handle and the channel name, returning 0. -/
theorem callback_default_action_witness :
    (newEventCallback ⟨"Security"⟩ 7 0 42).1 =
      [CallbackEffect.publishEvent 42 "Security"]
    ∧ (newEventCallback ⟨"Security"⟩ 7 0 42).2 = 0 :=
  ⟨(callback_default_action ⟨"Security"⟩ 0 42 7 (by decide)).1,
   (callback_default_action ⟨"Security"⟩ 0 42 7 (by decide)).2.1⟩

/-- Claim C4: for every channel, query, watcher and bookmark handle,
`CreateListenerFromBookmark` opens the subscription by passing that bookmark
handle together with the `EvtSubscribeStartAfterBookmark` flag (numeric value
3) to the subscribe capability; by the native contract this resumes delivery
at the record immediately after the bookmarked one. -/
theorem listenerFromBookmark_resume_flag
    (oracle : EvtSubscribeArgs → Except Nat Nat) (channel query : String)
    (w : LogEventCallbackWrapper) (bookmarkHandle : Nat)
    (hc : channel.toList.contains (Char.ofNat 0) = false)
    (hq : query.toList.contains (Char.ofNat 0) = false) :
    (CreateListenerFromBookmark oracle channel query w bookmarkHandle).calls =
      [⟨0, 0, utf16Units channel, utf16Units query, bookmarkHandle, 0,
        EvtSubscribeStartAfterBookmark⟩]
    ∧ EvtSubscribeStartAfterBookmark = 3 := by
  have hc' : Char.ofNat 0 ∉ channel.data := by simpa using hc
  have hq' : Char.ofNat 0 ∉ query.data := by simpa using hq
  refine ⟨?_, rfl⟩
  simp [CreateListenerFromBookmark, UTF16PtrFromString, hc', hq']

/-- Claim C4 witness: a concrete subscription from bookmark handle 77 passes
bookmark 77 and flag 3. -/
theorem listenerFromBookmark_resume_flag_witness :
    (CreateListenerFromBookmark (fun _ => Except.ok 9) "Application" "*"
        ⟨"Application"⟩ 77).calls =
      [⟨0, 0, utf16Units "Application", utf16Units "*", 77, 0,
        EvtSubscribeStartAfterBookmark⟩]
    ∧ EvtSubscribeStartAfterBookmark = 3 :=
  listenerFromBookmark_resume_flag (fun _ => Except.ok 9) "Application" "*"
    ⟨"Application"⟩ 77 (by decide) (by decide)

/-- Claim C5: an explicit start position and a resume bookmark are never
passed together: `CreateListener` passes a zero bookmark handle with the
caller-supplied start-position flag, and `CreateListenerFromBookmark` passes
the caller's bookmark handle with the start-after-bookmark flag and no
caller-chosen start position. -/
theorem subscribe_exclusive_inputs
    (oracle : EvtSubscribeArgs → Except Nat Nat) (channel query : String)
    (w : LogEventCallbackWrapper) (startpos bookmarkHandle : Nat)
    (hc : channel.toList.contains (Char.ofNat 0) = false)
    (hq : query.toList.contains (Char.ofNat 0) = false) :
    (CreateListener oracle channel query startpos w).calls =
      [⟨0, 0, utf16Units channel, utf16Units query, 0, 0, startpos⟩]
    ∧ (CreateListenerFromBookmark oracle channel query w
        bookmarkHandle).calls =
      [⟨0, 0, utf16Units channel, utf16Units query, bookmarkHandle, 0,
        EvtSubscribeStartAfterBookmark⟩] := by
  have hc' : Char.ofNat 0 ∉ channel.data := by simpa using hc
  have hq' : Char.ofNat 0 ∉ query.data := by simpa using hq
  constructor
  · simp [CreateListener, UTF16PtrFromString, hc', hq']
  · simp [CreateListenerFromBookmark, UTF16PtrFromString, hc', hq']

/-- Claim C5 witness: concrete calls with start position
`EvtSubscribeToFutureEvents` and bookmark handle 12. -/
theorem subscribe_exclusive_inputs_witness :
    (CreateListener (fun _ => Except.ok 4) "System" "*"
        EvtSubscribeToFutureEvents ⟨"System"⟩).calls =
      [⟨0, 0, utf16Units "System", utf16Units "*", 0, 0,
        EvtSubscribeToFutureEvents⟩]
    ∧ (CreateListenerFromBookmark (fun _ => Except.ok 4) "System" "*"
        ⟨"System"⟩ 12).calls =
      [⟨0, 0, utf16Units "System", utf16Units "*", 12, 0,
        EvtSubscribeStartAfterBookmark⟩] :=
  subscribe_exclusive_inputs (fun _ => Except.ok 4) "System" "*" ⟨"System"⟩
    EvtSubscribeToFutureEvents 12 (by decide) (by decide)

/-- Claim C6: `GetEventPublisherHandle` resolves the publisher by reading the
decoded provider-name field (ordinal `EvtSystemProviderName`) of the rendered
values as a string and opening publisher metadata for that name; if reading
that field fails, it returns the zero handle with that error and never calls
the native open-publisher capability. -/
theorem publisher_from_provider_name
    (openPub : List Nat → Except Nat Nat) (v : EvtVariant) :
    (∀ e, v.String EvtSystemProviderName = Except.error e →
      (GetEventPublisherHandle openPub v).result = Except.error e
      ∧ (GetEventPublisherHandle openPub v).calls = [])
    ∧ (∀ s, v.String EvtSystemProviderName = Except.ok s →
        s.toList.contains (Char.ofNat 0) = false →
        (GetEventPublisherHandle openPub v).calls = [utf16Units s]
        ∧ (GetEventPublisherHandle openPub v).result =
          (match openPub (utf16Units s) with
           | Except.error e => Except.error (GoError.errno e)
           | Except.ok h => Except.ok h)) := by
  constructor
  · intro e he
    simp [GetEventPublisherHandle, he]
  · intro s hs hnul
    have hnul' : Char.ofNat 0 ∉ s.data := by simpa using hnul
    constructor
    · simp [GetEventPublisherHandle, hs, UTF16PtrFromString, hnul']
    · simp [GetEventPublisherHandle, hs, UTF16PtrFromString, hnul']

/-- Claim C6 witness: a rendered-values array with an empty field list fails
the provider-name read with `IndexOutOfRange`; the function surfaces it and
makes no native open-publisher call. -/
theorem publisher_from_provider_name_witness :
    (GetEventPublisherHandle (fun _ => Except.ok 3) ⟨[]⟩).result =
      Except.error GoError.indexOutOfRange
    ∧ (GetEventPublisherHandle (fun _ => Except.ok 3) ⟨[]⟩).calls = [] :=
  (publisher_from_provider_name (fun _ => Except.ok 3) ⟨[]⟩).1
    GoError.indexOutOfRange rfl

/-- Concrete XML render probe: errno 122 with required size 4. -/
def xmlProbeCx : EvtRenderOut :=
  { err := some 122, bufferUsed := 4, propertyCount := 0 }

/-- Concrete XML render retry: succeeds, filling three code units. -/
def xmlSecondCx : Nat → EvtRenderOut :=
  fun n => { err := none, bufferUsed := n, propertyCount := 0,
             written := [60, 97, 62, 0] }

/-- Claim C1 counterexample: with the probe reporting a required size of 4,
`RenderEventXML` allocates `make([]uint16, 4)` — 8 bytes, not the reported
required byte size 4 — so the claim's "allocates a buffer of exactly the
reported required byte size" is false on the XML path. -/
theorem renderEventXML_alloc_not_byte_size :
    xmlProbeCx.bufferUsed = 4
    ∧ (RenderEventXML xmlProbeCx xmlSecondCx).alloc.map Alloc.bytes = some 8
    ∧ (RenderEventXML xmlProbeCx xmlSecondCx).alloc.map Alloc.bytes ≠
        some xmlProbeCx.bufferUsed := by
  refine ⟨rfl, ?_, ?_⟩ <;> decide

/-- Claim C1 (amended): every two-phase decode first calls the native
capability with buffer size 0 and a nil buffer to learn the required size,
then on the second call allocates a buffer of exactly the reported required
size in buffer elements — bytes for `RenderEventValues`; 16-bit units, i.e.
twice the reported size in bytes, for `RenderEventXML` and `FormatMessage` —
and passes exactly the reported size as the buffer size argument. -/
theorem twoPhase_sizing
    (pv px : EvtRenderOut) (pf : FormatOut)
    (sv sx : Nat → EvtRenderOut) (sf : Nat → FormatOut) (format : Nat)
    (hv : pv.bufferUsed ≠ 0) (hx : px.bufferUsed ≠ 0) (hf : pf.bufferUsed ≠ 0)
    (hfe : pf.err = none ∨ pf.err = some ERROR_INSUFFICIENT_BUFFER) :
    ((RenderEventValues pv sv).calls =
        [⟨EvtRenderEventValues, 0, true⟩,
         ⟨EvtRenderEventValues, pv.bufferUsed, false⟩]
      ∧ (RenderEventValues pv sv).alloc = some ⟨1, pv.bufferUsed⟩)
    ∧ ((RenderEventXML px sx).calls =
        [⟨EvtRenderEventXml, 0, true⟩,
         ⟨EvtRenderEventXml, px.bufferUsed, false⟩]
      ∧ (RenderEventXML px sx).alloc = some ⟨2, px.bufferUsed⟩)
    ∧ ((FormatMessage format pf sf).calls =
        [⟨format, 0, true⟩, ⟨format, pf.bufferUsed, false⟩]
      ∧ (FormatMessage format pf sf).alloc = some ⟨2, pf.bufferUsed⟩) := by
  refine ⟨?_, ?_, ?_⟩
  · cases hsv : (sv pv.bufferUsed).err <;>
      simp [RenderEventValues, hv, hsv]
  · cases hsx : (sx px.bufferUsed).err <;>
      simp [RenderEventXML, hx, hsx]
  · rcases hfe with hn | h122 <;>
      cases hsf : (sf pf.bufferUsed).err <;>
      simp_all [FormatMessage, FormatMessageRetry, ERROR_INSUFFICIENT_BUFFER]

/-- Concrete values-render probe for the C1 witness. -/
def pvW1 : EvtRenderOut := { err := some 122, bufferUsed := 3,
                             propertyCount := 2 }

/-- Concrete values-render retry for the C1 witness. -/
def svW1 : Nat → EvtRenderOut :=
  fun n => { err := none, bufferUsed := n, propertyCount := 2,
             written := [1, 0, 7] }

/-- Concrete XML probe for the C1 witness. -/
def pxW1 : EvtRenderOut := { err := some 122, bufferUsed := 6,
                             propertyCount := 0 }

/-- Concrete XML retry for the C1 witness. -/
def sxW1 : Nat → EvtRenderOut :=
  fun n => { err := none, bufferUsed := n, propertyCount := 0,
             written := [60, 47, 62, 0, 0, 0] }

/-- Concrete format probe for the C1 witness. -/
def pfW1 : FormatOut := { err := some 122, bufferUsed := 5 }

/-- Concrete format retry for the C1 witness. -/
def sfW1 : Nat → FormatOut :=
  fun n => { err := none, bufferUsed := n, written := [104, 105, 0, 0, 0] }

/-- Claim C1 witness: the amended two-phase property at concrete oracles. -/
theorem twoPhase_sizing_witness :
    ((RenderEventValues pvW1 svW1).calls =
        [⟨EvtRenderEventValues, 0, true⟩,
         ⟨EvtRenderEventValues, pvW1.bufferUsed, false⟩]
      ∧ (RenderEventValues pvW1 svW1).alloc = some ⟨1, pvW1.bufferUsed⟩)
    ∧ ((RenderEventXML pxW1 sxW1).calls =
        [⟨EvtRenderEventXml, 0, true⟩,
         ⟨EvtRenderEventXml, pxW1.bufferUsed, false⟩]
      ∧ (RenderEventXML pxW1 sxW1).alloc = some ⟨2, pxW1.bufferUsed⟩)
    ∧ ((FormatMessage EvtFormatMessageEvent pfW1 sfW1).calls =
        [⟨EvtFormatMessageEvent, 0, true⟩,
         ⟨EvtFormatMessageEvent, pfW1.bufferUsed, false⟩]
      ∧ (FormatMessage EvtFormatMessageEvent pfW1 sfW1).alloc =
          some ⟨2, pfW1.bufferUsed⟩) :=
  twoPhase_sizing pvW1 pxW1 pfW1 svW1 sxW1 sfW1 EvtFormatMessageEvent
    (by decide) (by decide) (by decide) (Or.inr (by decide))

/-- Claim C2: a buffer-too-small probe outcome (errno 122; by the native
contract it reports the nonzero required size, which is the hypothesis)
never causes `RenderEventValues` or `FormatMessage` to return an error: the
signal is absorbed, the reported size is used for the retry, and an error
surfaces exactly from a failure of the second call, or from a probe failure
that is not the insufficient-buffer signal. -/
theorem bufferTooSmall_absorbed
    (pv : EvtRenderOut) (pf : FormatOut)
    (sv : Nat → EvtRenderOut) (sf : Nat → FormatOut) (format : Nat)
    (hv : pv.err = some ERROR_INSUFFICIENT_BUFFER → pv.bufferUsed ≠ 0)
    (hf : pf.err = some ERROR_INSUFFICIENT_BUFFER → pf.bufferUsed ≠ 0) :
    (pv.err = some ERROR_INSUFFICIENT_BUFFER →
      (RenderEventValues pv sv).errOut = (sv pv.bufferUsed).err
      ∧ (RenderEventValues pv sv).calls =
          [⟨EvtRenderEventValues, 0, true⟩,
           ⟨EvtRenderEventValues, pv.bufferUsed, false⟩])
    ∧ (pf.err = some ERROR_INSUFFICIENT_BUFFER →
      (FormatMessage format pf sf).panicked = false
      ∧ (FormatMessage format pf sf).ret.map Prod.snd =
          some (sf pf.bufferUsed).err
      ∧ (FormatMessage format pf sf).calls =
          [⟨format, 0, true⟩, ⟨format, pf.bufferUsed, false⟩])
    ∧ (∀ e, (RenderEventValues pv sv).errOut = some e →
        ((sv pv.bufferUsed).err = some e ∧ pv.bufferUsed ≠ 0)
        ∨ (pv.err = some e ∧ e ≠ ERROR_INSUFFICIENT_BUFFER))
    ∧ (∀ e, (FormatMessage format pf sf).ret.map Prod.snd = some (some e) →
        ((sf pf.bufferUsed).err = some e
          ∧ (FormatMessage format pf sf).calls.length = 2)
        ∨ (pf.err = some e ∧ e ≠ ERROR_INSUFFICIENT_BUFFER
          ∧ (FormatMessage format pf sf).calls.length = 1)) := by
  refine ⟨?_, ?_, ?_, ?_⟩
  · intro h122
    have hnz := hv h122
    cases hsv : (sv pv.bufferUsed).err <;>
      simp [RenderEventValues, hnz, hsv]
  · intro h122
    have hnz := hf h122
    cases hsf : (sf pf.bufferUsed).err <;>
      simp [FormatMessage, FormatMessageRetry, h122,
        ERROR_INSUFFICIENT_BUFFER, hnz, hsf]
  · intro e he
    by_cases hz : pv.bufferUsed = 0
    · right
      simp [RenderEventValues, hz] at he
      refine ⟨he, fun hcontra => ?_⟩
      exact hv (hcontra ▸ he) hz
    · left
      cases hsv : (sv pv.bufferUsed).err with
      | none => simp [RenderEventValues, hz, hsv] at he
      | some e2 =>
        simp [RenderEventValues, hz, hsv] at he
        exact ⟨by rw [he], hz⟩
  · intro e he
    cases hpe : pf.err with
    | some e1 =>
      by_cases h1 : e1 = ERROR_INSUFFICIENT_BUFFER
      · have hnz : pf.bufferUsed ≠ 0 := hf (by rw [hpe, h1])
        cases hsf : (sf pf.bufferUsed).err with
        | none =>
          simp [FormatMessage, FormatMessageRetry, hpe, h1,
            ERROR_INSUFFICIENT_BUFFER, hnz, hsf] at he
        | some e2 =>
          simp [FormatMessage, FormatMessageRetry, hpe, h1,
            ERROR_INSUFFICIENT_BUFFER, hnz, hsf] at he
          left
          refine ⟨by rw [he], ?_⟩
          simp [FormatMessage, FormatMessageRetry, hpe, h1,
            ERROR_INSUFFICIENT_BUFFER, hnz, hsf]
      · simp [FormatMessage, hpe, h1] at he
        right
        refine ⟨by rw [he], by rw [← he]; exact h1, ?_⟩
        simp [FormatMessage, hpe, h1]
    | none =>
      by_cases hz : pf.bufferUsed = 0
      · simp [FormatMessage, FormatMessageRetry, hpe, hz] at he
      · cases hsf : (sf pf.bufferUsed).err with
        | none =>
          simp [FormatMessage, FormatMessageRetry, hpe, hz, hsf] at he
        | some e2 =>
          simp [FormatMessage, FormatMessageRetry, hpe, hz, hsf] at he
          left
          refine ⟨by rw [he], ?_⟩
          simp [FormatMessage, FormatMessageRetry, hpe, hz, hsf]

/-- Concrete values-render probe for the C2 witness: errno 122, size 3. -/
def pvW2 : EvtRenderOut := { err := some 122, bufferUsed := 3,
                             propertyCount := 1 }

/-- Concrete values-render retry for the C2 witness: succeeds. -/
def svW2 : Nat → EvtRenderOut :=
  fun n => { err := none, bufferUsed := n, propertyCount := 1,
             written := [9, 9, 9] }

/-- Concrete format probe for the C2 witness: errno 122, size 2. -/
def pfW2 : FormatOut := { err := some 122, bufferUsed := 2 }

/-- Concrete format retry for the C2 witness: succeeds. -/
def sfW2 : Nat → FormatOut :=
  fun n => { err := none, bufferUsed := n, written := [104, 0] }

/-- Claim C2 witness: the insufficient-buffer probe is absorbed at the
concrete oracles — no error surfaces from either decode. -/
theorem bufferTooSmall_absorbed_witness :
    ((RenderEventValues pvW2 svW2).errOut = (svW2 pvW2.bufferUsed).err
      ∧ (RenderEventValues pvW2 svW2).calls =
          [⟨EvtRenderEventValues, 0, true⟩,
           ⟨EvtRenderEventValues, pvW2.bufferUsed, false⟩])
    ∧ (FormatMessage EvtFormatMessageEvent pfW2 sfW2).panicked = false :=
  ⟨(bufferTooSmall_absorbed pvW2 pfW2 svW2 sfW2 EvtFormatMessageEvent
      (by decide) (by decide)).1 (by decide),
   ((bufferTooSmall_absorbed pvW2 pfW2 svW2 sfW2 EvtFormatMessageEvent
      (by decide) (by decide)).2.1 (by decide)).1⟩

/-- Concrete format probe for the C8 counterexample: success reported with a
required size of zero. -/
def fmtProbeCx : FormatOut := { err := none, bufferUsed := 0 }

/-- Claim C8 counterexample: when the probe reports required size zero and
does not fail, `FormatMessage` reaches `&buf[0]` on a zero-length buffer —
the claim's "FormatMessage never indexes the first element of an empty
buffer" is false on the code. -/
theorem formatMessage_empty_buffer_index :
    fmtProbeCx.bufferUsed = 0 ∧ fmtProbeCx.err = none
    ∧ (FormatMessage EvtFormatMessageEvent fmtProbeCx
        (fun _ => fmtProbeCx)).panicked = true := by
  decide

/-- Claim C8 (amended): when the probe reports a required size of zero,
`RenderEventValues` and `RenderEventXML` return a nil result together with
the probe call's error, never perform the second render call and allocate
nothing; `FormatMessage` avoids the empty buffer only when the probe failed
with an error other than the insufficient-buffer signal (that error is
returned before any allocation), and indexes the first element of a
zero-length buffer when the probe succeeded or failed with the
insufficient-buffer signal. -/
theorem zero_required_size
    (pv px : EvtRenderOut) (pf : FormatOut)
    (sv sx : Nat → EvtRenderOut) (sf : Nat → FormatOut) (format : Nat)
    (hv : pv.bufferUsed = 0) (hx : px.bufferUsed = 0)
    (hf : pf.bufferUsed = 0) :
    ((RenderEventValues pv sv).buffer = none
      ∧ (RenderEventValues pv sv).errOut = pv.err
      ∧ (RenderEventValues pv sv).calls = [⟨EvtRenderEventValues, 0, true⟩]
      ∧ (RenderEventValues pv sv).alloc = none)
    ∧ ((RenderEventXML px sx).buffer = none
      ∧ (RenderEventXML px sx).errOut = px.err
      ∧ (RenderEventXML px sx).calls = [⟨EvtRenderEventXml, 0, true⟩]
      ∧ (RenderEventXML px sx).alloc = none)
    ∧ (∀ e, pf.err = some e → e ≠ ERROR_INSUFFICIENT_BUFFER →
        (FormatMessage format pf sf).panicked = false
        ∧ (FormatMessage format pf sf).ret = some ("", some e))
    ∧ ((pf.err = none ∨ pf.err = some ERROR_INSUFFICIENT_BUFFER) →
        (FormatMessage format pf sf).panicked = true) := by
  refine ⟨?_, ?_, ?_, ?_⟩
  · simp [RenderEventValues, hv]
  · simp [RenderEventXML, hx]
  · intro e he hne
    simp [FormatMessage, he, hne]
  · rintro (hn | h122)
    · simp [FormatMessage, FormatMessageRetry, hn, hf]
    · simp [FormatMessage, FormatMessageRetry, h122,
        ERROR_INSUFFICIENT_BUFFER, hf]

/-- Concrete probes for the C8 witness: all report required size zero; the
format probe fails with errno 5 (not the insufficient-buffer signal). -/
def pvW8 : EvtRenderOut := { err := some 15007, bufferUsed := 0,
                             propertyCount := 0 }

/-- Concrete XML probe for the C8 witness. -/
def pxW8 : EvtRenderOut := { err := none, bufferUsed := 0,
                             propertyCount := 0 }

/-- Concrete format probe for the C8 witness. -/
def pfW8 : FormatOut := { err := some 5, bufferUsed := 0 }

/-- Claim C8 witness: the zero-size outcomes at concrete oracles. -/
theorem zero_required_size_witness :
    ((RenderEventValues pvW8 (fun _ => pvW8)).buffer = none
      ∧ (RenderEventValues pvW8 (fun _ => pvW8)).errOut = pvW8.err
      ∧ (RenderEventValues pvW8 (fun _ => pvW8)).calls =
          [⟨EvtRenderEventValues, 0, true⟩]
      ∧ (RenderEventValues pvW8 (fun _ => pvW8)).alloc = none)
    ∧ ((RenderEventXML pxW8 (fun _ => pxW8)).buffer = none
      ∧ (RenderEventXML pxW8 (fun _ => pxW8)).errOut = pxW8.err
      ∧ (RenderEventXML pxW8 (fun _ => pxW8)).calls =
          [⟨EvtRenderEventXml, 0, true⟩]
      ∧ (RenderEventXML pxW8 (fun _ => pxW8)).alloc = none)
    ∧ (∀ e, pfW8.err = some e → e ≠ ERROR_INSUFFICIENT_BUFFER →
        (FormatMessage EvtFormatMessageEvent pfW8
          (fun _ => pfW8)).panicked = false
        ∧ (FormatMessage EvtFormatMessageEvent pfW8
            (fun _ => pfW8)).ret = some ("", some e))
    ∧ ((pfW8.err = none ∨ pfW8.err = some ERROR_INSUFFICIENT_BUFFER) →
        (FormatMessage EvtFormatMessageEvent pfW8
          (fun _ => pfW8)).panicked = true) :=
  zero_required_size pvW8 pxW8 pfW8 (fun _ => pvW8) (fun _ => pxW8)
    (fun _ => pfW8) EvtFormatMessageEvent rfl rfl rfl

end Winlog
